import Mathlib

set_option maxHeartbeats 1000000

/-!
Shallow embedding of the `ntex-study` employee CRUD service.

The embedding follows the Rust source:
  * `src/handlers/routes.rs` — the HTTP handlers (`payload`, `create_employee`,
    `get_employee`, `get_employees`, `update_employee`, `delete_employee`) and
    the route table built by `config`;
  * `src/repository/database.rs` — the diesel-backed repository operations and
    the pool constructor `new`;
  * `src/models/employee.rs` — the `Employee` and `NewEmployee` records;
  * `src/main.rs` — the startup sequence.

Bytes are modelled as `Nat`, timestamps as `Int`, and the database table as a
`List Employee`.  The diesel `employees` schema itself (`models/schema.rs`) is
not part of the provided sources; where its behaviour matters (primary-key
lookup, server-side column resolution) the definitions note what is modelled
from the spec.
-/

/-! ## Payload accumulator (`routes.rs`, `payload`) -/

abbrev Timestamp := Int

/-- routes.rs line 49: `const MAX_SIZE: usize = 262_144; // max payload size is 256k`. -/
def MAX_SIZE : Nat := 262144

/-- routes.rs `struct Info { user_id: u32, friend: String }`, the JSON target
of the `payload` and `json` handlers. -/
structure Info where
  user_id : Nat
  friend : String
deriving DecidableEq

/-- Outcome of the accumulation `while let` loop in `payload`: either the size
check fired — carrying the chunks of the stream the loop never read — or the
stream was drained into the finished body. -/
inductive LoopResult where
  | overflow (unread : List (List Nat))
  | done (body : List Nat)
deriving DecidableEq

/-- The `while let Some(chunk) = payload.next().await` loop of the `payload`
handler (routes.rs lines 87-95): before appending a chunk it tests
`(body.len() + chunk.len()) > MAX_SIZE` and bails out with the overflow error,
otherwise it runs `body.extend_from_slice(&chunk)` and continues. -/
def payloadLoop : List (List Nat) → List Nat → LoopResult
  | [], body => .done body
  | chunk :: rest, body =>
      if MAX_SIZE < body.length + chunk.length then .overflow rest
      else payloadLoop rest (body ++ chunk)

/-- Instrumentation of `payloadLoop`: the successive values taken by the
in-memory `body` buffer, in order, one entry per loop iteration plus the
state at exit.  Same recursion and same branch condition as `payloadLoop`. -/
def payloadBuffers : List (List Nat) → List Nat → List (List Nat)
  | [], body => [body]
  | chunk :: rest, body =>
      if MAX_SIZE < body.length + chunk.length then [body]
      else body :: payloadBuffers rest (body ++ chunk)

/-- The three ways the `payload` handler can answer: 200 with the echoed JSON
object, 400 `"overflow"` from the size check, or 400 from a failed
`serde_json::from_slice`. -/
inductive PayloadResponse where
  | okJson (info : Info)
  | badRequestOverflow
  | badRequestJson
deriving DecidableEq

/-- routes.rs `payload` handler (lines 85-100): accumulate the chunk stream
under the size bound, then — only once the body is fully loaded — run the JSON
decoder (`serde_json::from_slice::<Info>`), modelled abstractly by `decode`. -/
def payload (decode : List Nat → Option Info) (chunks : List (List Nat)) :
    PayloadResponse :=
  match payloadLoop chunks [] with
  | .overflow _ => .badRequestOverflow
  | .done body =>
      match decode body with
      | some obj => .okJson obj
      | none => .badRequestJson

/-! ## Payload lemmas -/

theorem payloadLoop_overflow (chunks : List (List Nat)) (body : List Nat)
    (hb : body.length ≤ MAX_SIZE)
    (h : MAX_SIZE < body.length + (chunks.map List.length).sum) :
    ∃ pre unread, chunks = pre ++ unread ∧
      payloadLoop chunks body = .overflow unread := by
  induction chunks generalizing body with
  | nil =>
      simp only [List.map_nil, List.sum_nil, Nat.add_zero] at h
      omega
  | cons c rest ih =>
      by_cases hc : MAX_SIZE < body.length + c.length
      · exact ⟨[c], rest, rfl, by simp [payloadLoop, hc]⟩
      · push_neg at hc
        obtain ⟨pre, unread, hsplit, hloop⟩ :=
          ih (body ++ c) (by simpa using hc)
            (by simp only [List.map_cons, List.sum_cons] at h
                simp only [List.length_append]
                omega)
        refine ⟨c :: pre, unread, by simp [hsplit], ?_⟩
        simpa [payloadLoop, Nat.not_lt.mpr hc] using hloop

theorem payloadLoop_done (chunks : List (List Nat)) (body : List Nat)
    (h : body.length + (chunks.map List.length).sum ≤ MAX_SIZE) :
    payloadLoop chunks body = .done (body ++ chunks.flatten) := by
  induction chunks generalizing body with
  | nil => simp [payloadLoop]
  | cons c rest ih =>
      simp only [List.map_cons, List.sum_cons] at h
      have hc : ¬ MAX_SIZE < body.length + c.length := by omega
      rw [payloadLoop, if_neg hc,
        ih (body ++ c) (by simp only [List.length_append]; omega)]
      simp

theorem payloadBuffers_bounded (chunks : List (List Nat)) (body : List Nat)
    (hb : body.length ≤ MAX_SIZE) :
    ∀ b ∈ payloadBuffers chunks body, b.length ≤ MAX_SIZE := by
  induction chunks generalizing body with
  | nil => simpa [payloadBuffers] using hb
  | cons c rest ih =>
      intro b hbmem
      by_cases hc : MAX_SIZE < body.length + c.length
      · simp [payloadBuffers, hc] at hbmem
        simpa [hbmem] using hb
      · simp [payloadBuffers, hc] at hbmem
        rcases hbmem with rfl | hbmem
        · exact hb
        · exact ih (body ++ c)
            (by simp only [List.length_append]; omega) b hbmem

/-! ## Claim C1 -/

/-- Claim C1: for every sequence of body chunks whose cumulative byte length
exceeds 262,144, the `payload` handler fails with the overflow bad-request
error, leaves a suffix of the stream unread, and never reaches the JSON
decode — for every decoder, i.e. regardless of whether the accumulated bytes
would have been valid JSON. -/
theorem C1_payload_overflow (decode : List Nat → Option Info)
    (chunks : List (List Nat))
    (h : MAX_SIZE < (chunks.map List.length).sum) :
    payload decode chunks = .badRequestOverflow ∧
    ∃ pre unread, chunks = pre ++ unread ∧
      payloadLoop chunks [] = .overflow unread := by
  obtain ⟨pre, unread, hsplit, hloop⟩ :=
    payloadLoop_overflow chunks [] (by simp [MAX_SIZE]) (by simpa using h)
  exact ⟨by simp [payload, hloop], pre, unread, hsplit, hloop⟩

/-- Witness for C1 at a concrete input: a single chunk of 262,145 bytes, with
a decoder that would happily accept any body. -/
theorem C1_payload_overflow_witness :
    payload (fun _ => some ⟨0, "x"⟩) [List.replicate 262145 0] =
      .badRequestOverflow ∧
    ∃ pre unread, [List.replicate 262145 0] = pre ++ unread ∧
      payloadLoop [List.replicate 262145 0] [] = .overflow unread :=
  C1_payload_overflow (fun _ => some ⟨0, "x"⟩) [List.replicate 262145 0]
    (by rw [List.map_cons, List.map_nil, List.length_replicate, List.sum_cons,
          List.sum_nil]
        decide)

/-! ## Claim C10 -/

/-- Claim C10: the size check runs before a chunk is appended, so every value
the in-memory buffer takes during accumulation has length at most 262,144;
and the limit is exclusive: any body totalling at most 262,144 bytes (in
particular exactly 262,144) is never rejected by the overflow branch. -/
theorem C10_payload_limit_exclusive (decode : List Nat → Option Info)
    (chunks : List (List Nat)) :
    (∀ b ∈ payloadBuffers chunks [], b.length ≤ MAX_SIZE) ∧
    ((chunks.map List.length).sum ≤ MAX_SIZE →
      payload decode chunks ≠ .badRequestOverflow) := by
  refine ⟨payloadBuffers_bounded chunks [] (by simp), ?_⟩
  intro h
  have hdone := payloadLoop_done chunks [] (by simpa using h)
  simp only [payload, hdone, List.nil_append]
  rcases hd : decode chunks.flatten with _ | obj <;> simp [hd]

/-- Witness for C10 at the exact boundary: a single chunk of exactly 262,144
bytes is accepted by the accumulator (the overflow branch is not taken). -/
theorem C10_payload_limit_exclusive_witness :
    (∀ b ∈ payloadBuffers [List.replicate 262144 0] [], b.length ≤ MAX_SIZE) ∧
    payload (fun _ => none) [List.replicate 262144 0] ≠ .badRequestOverflow :=
  ⟨(C10_payload_limit_exclusive (fun _ => none) [List.replicate 262144 0]).1,
   (C10_payload_limit_exclusive (fun _ => none) [List.replicate 262144 0]).2
     (by rw [List.map_cons, List.map_nil, List.length_replicate, List.sum_cons,
           List.sum_nil]
         decide)⟩

/-! ## Employee data model (`models/employee.rs`) -/

/-- models/employee.rs `Employee`: `{ id: i32, name: String, created_at: NaiveDateTime }`. -/
structure Employee where
  id : Int
  name : String
  created_at : Timestamp
deriving DecidableEq

/-- models/employee.rs `NewEmployee`: `{ name: String, created_at: Option<NaiveDateTime> }`. -/
structure NewEmployee where
  name : String
  created_at : Option Timestamp
deriving DecidableEq

/-- Errors from the repository layer (diesel `QueryResult` errors): a zero-row
`first`/`get_result` yields `NotFound`; any other database failure is a
statement error. -/
inductive DbError where
  | notFound
  | statementError (msg : String)
deriving DecidableEq

/-! ## Repository (`repository/database.rs`), the table as a `List Employee`.
The `employees` schema (`models/schema.rs`) is referenced by the sources but
not among them; per the spec, `id` is the server-assigned primary key. -/

namespace Database

/-- database.rs `create_employee`:
`diesel::insert_into(employees).values(&employee).get_result(pool)`.
Modelled from the spec: the insert returns "the server-assigned row (including
generated id and resolved created_at)" — the generated key is `newId`, and
`created_at` resolves to the payload's value, falling back to the server-side
column default `dflt` (the default lives in the missing schema) when absent. -/
def create_employee (store : List Employee) (newId : Int) (dflt : Timestamp)
    (employee : NewEmployee) : Except DbError (Employee × List Employee) :=
  let row : Employee :=
    { id := newId, name := employee.name,
      created_at := employee.created_at.getD dflt }
  .ok (row, store ++ [row])

/-- database.rs `get_employee_by_id`:
`employees.find(employee_id).first(pool)`; diesel's `first` yields
`Err(NotFound)` when the point lookup matches zero rows. -/
def get_employee_by_id (store : List Employee) (employee_id : Int) :
    Except DbError Employee :=
  match store.find? (fun e => e.id == employee_id) with
  | some e => .ok e
  | none => .error .notFound

/-- database.rs `get_all_employees`: `employees.load(pool)` — the full table. -/
def get_all_employees (store : List Employee) :
    Except DbError (List Employee) :=
  .ok store

/-- database.rs `update_employee_by_id`:
`diesel::update(employees.find(employee_id)).set(&employee).get_result(pool)`.
The derived `AsChangeset` on `Employee` skips the primary key, so a matched
row keeps its `id` while `name` and `created_at` are set from `employee`;
zero matching rows make `get_result` yield `Err(NotFound)`. -/
def update_employee_by_id (store : List Employee) (employee_id : Int)
    (employee : Employee) : Except DbError (Employee × List Employee) :=
  match store.find? (fun e => e.id == employee_id) with
  | none => .error .notFound
  | some old =>
      let updated : Employee :=
        { id := old.id, name := employee.name,
          created_at := employee.created_at }
      .ok (updated, store.map (fun e => if e.id == employee_id then updated else e))

/-- database.rs `delete_employee_by_id`:
`diesel::delete(employees.find(employee_id)).execute(pool)` — removes the rows
matched by the primary-key lookup and returns how many were removed. -/
def delete_employee_by_id (store : List Employee) (employee_id : Int) :
    Except DbError (Nat × List Employee) :=
  .ok ((store.filter (fun e => e.id == employee_id)).length,
       store.filter (fun e => !(e.id == employee_id)))

/-- database.rs `new` (lines 10-18): reads `DATABASE_URL`
(`.expect("DATABASE_URL must be set")` panics when absent) and builds the
r2d2 pool (`.expect("Failed to create pool.")` panics when the initial pool
cannot be established).  A startup panic is modelled as `Except.error`
carrying the expect message; `buildOk` abstracts whether the r2d2 builder
can establish the initial pool for a given connection string (malformed URL
or unreachable database make it fail). -/
def new (database_url : Option String) (buildOk : String → Bool) :
    Except String Unit :=
  match database_url with
  | none => .error "DATABASE_URL must be set"
  | some url => if buildOk url then .ok () else .error "Failed to create pool."

end Database

/-! ## Handlers (`handlers/routes.rs`).  Each database-backed handler first
runs `pool.get().expect("couldn't get db connection from pool")` — modelled by
a `conn : Option Unit` argument where `none` makes the handler panic — and
maps every error of the offloaded repository call to a 500 response via
`map_err(web::error::ErrorInternalServerError)`. -/

/-- Outcome of a handler: a 200 response with a JSON body, an error response
with its HTTP status, or a panic that escapes the handler (no response). -/
inductive HandlerResult (α : Type) where
  | success (body : α)
  | errorResponse (status : Nat)
  | panicked (msg : String)
deriving DecidableEq

/-- HTTP status of a handler outcome; a panic produces no status at all. -/
def statusOf {α : Type} : HandlerResult α → Option Nat
  | .success _ => some 200
  | .errorResponse s => some s
  | .panicked _ => none

namespace Routes

/-- routes.rs `create_employee` (lines 129-147): acquire a connection with
`pool.get().expect(...)`; then `employee.created_at =
Some(chrono::Local::now().naive_local())` unconditionally overwrites the
payload's `created_at` with the server clock `now`; the insert runs in
`web::block` and any of its errors becomes a 500. -/
def create_employee (conn : Option Unit) (now : Timestamp) (newId : Int)
    (dflt : Timestamp) (store : List Employee) (employee : NewEmployee) :
    HandlerResult Employee × List Employee :=
  match conn with
  | none => (.panicked "couldn't get db connection from pool", store)
  | some _ =>
      let employee : NewEmployee := { employee with created_at := some now }
      match Database.create_employee store newId dflt employee with
      | .error _ => (.errorResponse 500, store)
      | .ok (new_employee, store') => (.success new_employee, store')

/-- routes.rs `get_employee` (lines 150-162): point lookup; every repository
error — diesel `NotFound` included — is mapped by
`map_err(ErrorInternalServerError)` to a 500 response. -/
def get_employee (conn : Option Unit) (store : List Employee) (id : Int) :
    HandlerResult Employee :=
  match conn with
  | none => .panicked "couldn't get db connection from pool"
  | some _ =>
      match Database.get_employee_by_id store id with
      | .error _ => .errorResponse 500
      | .ok employee => .success employee

/-- routes.rs `get_employees` (lines 164-174). -/
def get_employees (conn : Option Unit) (store : List Employee) :
    HandlerResult (List Employee) :=
  match conn with
  | none => .panicked "couldn't get db connection from pool"
  | some _ =>
      match Database.get_all_employees store with
      | .error _ => .errorResponse 500
      | .ok employees => .success employees

/-- routes.rs `update_employee` (lines 177-200): builds the full replacement
row `{ id, name: employee.name, created_at:
employee.created_at.unwrap_or(now) }` and hands it to the repository;
every repository error becomes a 500. -/
def update_employee (conn : Option Unit) (now : Timestamp)
    (store : List Employee) (id : Int) (employee : NewEmployee) :
    HandlerResult Employee × List Employee :=
  match conn with
  | none => (.panicked "couldn't get db connection from pool", store)
  | some _ =>
      let new_employee : Employee :=
        { id := id, name := employee.name,
          created_at := employee.created_at.getD now }
      match Database.update_employee_by_id store id new_employee with
      | .error _ => (.errorResponse 500, store)
      | .ok (employee, store') => (.success employee, store')

/-- routes.rs `delete_employee` (lines 203-215): the row count from the
repository delete is returned as the 200 JSON body. -/
def delete_employee (conn : Option Unit) (store : List Employee) (id : Int) :
    HandlerResult Nat × List Employee :=
  match conn with
  | none => (.panicked "couldn't get db connection from pool", store)
  | some _ =>
      match Database.delete_employee_by_id store id with
      | .error _ => (.errorResponse 500, store)
      | .ok (res, store') => (.success res, store')

end Routes

/-! ## Handler lemmas -/

theorem find?_map_update (store : List Employee) (id : Int)
    (old updated : Employee)
    (hfind : store.find? (fun e => e.id == id) = some old)
    (hupd : updated.id = id) :
    (store.map (fun e => if e.id == id then updated else e)).find?
      (fun e => e.id == id) = some updated := by
  induction store with
  | nil => simp [List.find?] at hfind
  | cons a rest ih =>
      by_cases ha : a.id = id
      · simp [List.find?, ha, hupd]
      · have hbeq : (a.id == id) = false := by simpa using ha
        simp only [List.find?_cons, hbeq] at hfind
        simp only [List.map_cons, hbeq, Bool.false_eq_true, if_false,
          List.find?_cons]
        exact ih hfind

theorem filter_eq_id_length_le_one (store : List Employee) (id : Int)
    (h : (store.map Employee.id).Nodup) :
    (store.filter (fun e => e.id == id)).length ≤ 1 := by
  induction store with
  | nil => simp
  | cons a rest ih =>
      simp only [List.map_cons, List.nodup_cons] at h
      by_cases ha : a.id = id
      · have hnil : rest.filter (fun e => e.id == id) = [] := by
          apply List.filter_eq_nil_iff.mpr
          intro e he
          simp only [beq_iff_eq]
          intro heq
          exact h.1 (by rw [ha, ← heq]; exact List.mem_map_of_mem _ he)
        simp [List.filter_cons, ha, hnil]
      · simp only [List.filter_cons, beq_iff_eq, ha, decide_False,
          if_false]
        exact ih h.2

/-! ## Claim C2 -/

/-- Counterexample to claim C2 at a concrete input: the caller supplies
`created_at = 0`, the server clock reads `1`, and the created employee comes
back stamped `1`, not the supplied `0` — the handler overwrites `created_at`
unconditionally (routes.rs line 136). -/
theorem C2_counterexample :
    (Routes.create_employee (some ()) 1 7 99 [] ⟨"A", some 0⟩).1 =
      .success ⟨7, "A", 1⟩ ∧ (1 : Timestamp) ≠ 0 := by
  decide

/-- Claim C2 (amended): the create handler substitutes the server-side "now"
unconditionally — for every creation payload, supplied `created_at` or not,
the created `Employee` carries the server timestamp `now`. -/
theorem C2_create_overwrites_created_at (now : Timestamp) (newId : Int)
    (dflt : Timestamp) (store : List Employee) (ne : NewEmployee) :
    (Routes.create_employee (some ()) now newId dflt store ne).1 =
      .success { id := newId, name := ne.name, created_at := now } := by
  simp [Routes.create_employee, Database.create_employee]

/-! ## Claim C3 -/

/-- Counterexample to claim C3 at a concrete input: with an empty table, the
repository lookup for id 1 does yield `NotFound`, but the handler surfaces it
as HTTP 500 (`map_err(ErrorInternalServerError)`), not 404. -/
theorem C3_counterexample :
    Database.get_employee_by_id [] 1 = .error .notFound ∧
    statusOf (Routes.get_employee (some ()) [] 1) = some 500 ∧
    statusOf (Routes.get_employee (some ()) [] 1) ≠ some 404 :=
  ⟨rfl, rfl, by decide⟩

/-- Claim C3 (amended): for every id not present in the store, `getById`
yields `NotFound`, and the handler surfaces it over HTTP as a generic 500
response (the handler maps every repository error, `NotFound` included,
through `ErrorInternalServerError`). -/
theorem C3_get_missing_id_500 (store : List Employee) (id : Int)
    (h : ∀ e ∈ store, e.id ≠ id) :
    Database.get_employee_by_id store id = .error .notFound ∧
    statusOf (Routes.get_employee (some ()) store id) = some 500 := by
  have hfind : store.find? (fun e => e.id == id) = none := by
    apply List.find?_eq_none.mpr
    intro e he
    simpa using h e he
  exact ⟨by simp [Database.get_employee_by_id, hfind],
    by simp [Routes.get_employee, Database.get_employee_by_id, hfind, statusOf]⟩

/-- Witness for the amended C3 at a concrete input: the empty store. -/
theorem C3_get_missing_id_500_witness :
    Database.get_employee_by_id [] 2 = .error .notFound ∧
    statusOf (Routes.get_employee (some ()) [] 2) = some 500 :=
  C3_get_missing_id_500 [] 2 (by simp)

/-! ## Claim C4 -/

/-- Counterexample to claim C4 at a concrete input: the store holds
`{id 1, name "A", created_at 0}`; a PUT for id 1 with payload
`{name "B", created_at absent}` at server time 5 is applied, and the
subsequent fetch returns `created_at = 5` — the unsupplied field was
overwritten with the server clock (`unwrap_or(now)` in routes.rs line 190),
not left unchanged at `0`. -/
theorem C4_counterexample :
    (Routes.update_employee (some ()) 5 [⟨1, "A", 0⟩] 1 ⟨"B", none⟩).1 =
      .success ⟨1, "B", 5⟩ ∧
    Database.get_employee_by_id
        (Routes.update_employee (some ()) 5 [⟨1, "A", 0⟩] 1 ⟨"B", none⟩).2 1 =
      .ok ⟨1, "B", 5⟩ ∧
    (5 : Timestamp) ≠ 0 :=
  ⟨rfl, rfl, by decide⟩

/-- Claim C4 (amended): updating an existing id sets `name` to the submitted
name and `created_at` to the submitted timestamp when one is supplied, or to
the server clock `now` when it is absent (rather than leaving it unchanged);
the `id` stays immutable, and fetching afterward reflects exactly this
updated row. -/
theorem C4_update_frame (now : Timestamp) (store : List Employee) (id : Int)
    (ne : NewEmployee) (old : Employee)
    (hfind : store.find? (fun e => e.id == id) = some old) :
    old.id = id ∧
    ∃ store',
      Routes.update_employee (some ()) now store id ne =
        (.success { id := old.id, name := ne.name,
                    created_at := ne.created_at.getD now }, store') ∧
      Database.get_employee_by_id store' id =
        .ok { id := old.id, name := ne.name,
              created_at := ne.created_at.getD now } := by
  have hid : old.id = id := by simpa using List.find?_some hfind
  refine ⟨hid, store.map (fun e =>
    if e.id == id
    then { id := old.id, name := ne.name,
           created_at := ne.created_at.getD now }
    else e), ?_, ?_⟩
  · simp [Routes.update_employee, Database.update_employee_by_id, hfind]
  · have hmap := find?_map_update store id old
      { id := old.id, name := ne.name, created_at := ne.created_at.getD now }
      hfind (by simpa using hid)
    unfold Database.get_employee_by_id
    rw [hmap]

/-- Witness for the amended C4 at a concrete input: updating id 1 of a
one-row store with a payload that supplies `created_at = 3`. -/
theorem C4_update_frame_witness :
    (1 : Int) = 1 ∧
    ∃ store',
      Routes.update_employee (some ()) 5 [⟨1, "A", 0⟩] 1 ⟨"B", some 3⟩ =
        (.success ⟨1, "B", 3⟩, store') ∧
      Database.get_employee_by_id store' 1 = .ok ⟨1, "B", 3⟩ :=
  C4_update_frame 5 [⟨1, "A", 0⟩] 1 ⟨"B", some 3⟩ ⟨1, "A", 0⟩ (by rfl)

/-! ## Claim C5 -/

/-- Claim C5 fails on the code: when acquiring a connection from the pool
fails, `pool.get().expect("couldn't get db connection from pool")` panics
inside the handler instead of producing a 500 response — the handler yields
no response at all (routes.rs line 155; every database-backed handler opens
the same way). -/
theorem C5_pool_failure_panics :
    Routes.get_employee none [] 1 =
      .panicked "couldn't get db connection from pool" ∧
    statusOf (Routes.get_employee none [] 1) ≠ some 500 ∧
    Routes.create_employee none 1 7 99 [] ⟨"A", none⟩ =
      (.panicked "couldn't get db connection from pool", []) ∧
    statusOf (Routes.create_employee none 1 7 99 [] ⟨"A", none⟩).1 ≠ some 500 :=
  ⟨rfl, by decide, rfl, by decide⟩

/-! ## Claim C6 -/

/-- Claim C6: with `id` a primary key (no duplicate ids in the table), the
delete operation reports 0 or 1 rows removed; deleting a nonexistent id
reports 0 rows, leaves the store unchanged, and the handler answers 200 with
the JSON count rather than an error or a panic. -/
theorem C6_delete_count (store : List Employee) (id : Int)
    (h : (store.map Employee.id).Nodup) :
    (∃ n store', Database.delete_employee_by_id store id = .ok (n, store') ∧
      (n = 0 ∨ n = 1)) ∧
    ((∀ e ∈ store, e.id ≠ id) →
      Routes.delete_employee (some ()) store id = (.success 0, store) ∧
      statusOf (Routes.delete_employee (some ()) store id).1 = some 200) := by
  constructor
  · refine ⟨_, _, rfl, ?_⟩
    have := filter_eq_id_length_le_one store id h
    omega
  · intro hmem
    have hfil0 : store.filter (fun e => e.id == id) = [] := by
      apply List.filter_eq_nil_iff.mpr
      intro e he
      simpa using hmem e he
    have hfil1 : store.filter (fun e => !(e.id == id)) = store := by
      apply List.filter_eq_self.mpr
      intro e he
      simpa using hmem e he
    constructor
    · simp [Routes.delete_employee, Database.delete_employee_by_id,
        hfil0, hfil1]
    · simp [Routes.delete_employee, Database.delete_employee_by_id,
        hfil0, hfil1, statusOf]

/-- Witness for C6 at a concrete input: deleting the absent id 2 from a
one-row store. -/
theorem C6_delete_count_witness :
    (∃ n store',
      Database.delete_employee_by_id [⟨1, "A", 0⟩] 2 = .ok (n, store') ∧
      (n = 0 ∨ n = 1)) ∧
    (Routes.delete_employee (some ()) [⟨1, "A", 0⟩] 2 =
        (.success 0, [⟨1, "A", 0⟩]) ∧
      statusOf (Routes.delete_employee (some ()) [⟨1, "A", 0⟩] 2).1 =
        some 200) :=
  ⟨(C6_delete_count [⟨1, "A", 0⟩] 2 (by decide)).1,
   (C6_delete_count [⟨1, "A", 0⟩] 2 (by decide)).2 (by decide)⟩

/-! ## Router model (`config`, routes.rs lines 217-265).
Modelled from the spec: the dispatch and guard semantics live in the ntex
framework, outside this repository's sources.  Per the spec, the router
"matches method, path pattern, and optional header guards to a handler" and
"returns a not-found response for unmatched requests"; a header guard only
matches "when `content-type` equals a required value; non-matching requests
fall through to the next candidate route or to 404". -/

/-- A request, its path already split into `/`-separated segments. -/
structure Request where
  method : String
  path : List String
  headers : List (String × String)
deriving DecidableEq

/-- One segment of a route's path pattern: a literal, or a `{...}` parameter
that matches any segment. -/
inductive Seg where
  | lit (s : String)
  | param (name : String)
deriving DecidableEq

structure RouteEntry where
  method : String
  pattern : List Seg
  guards : List (String × String)
  handler : String
deriving DecidableEq

/-- First value of the header with the given name, if any. -/
def headerLookup (headers : List (String × String)) (name : String) :
    Option String :=
  (headers.find? (fun p => p.1 == name)).map Prod.snd

/-- A pattern segment matches a path segment when it is a parameter or equals
it literally. -/
def segMatches : Seg → String → Bool
  | .lit s, seg => s == seg
  | .param _, _ => true

/-- A path pattern matches a concrete path when the segment lists have equal
length and match segment by segment. -/
def pathMatches (pattern : List Seg) (path : List String) : Bool :=
  pattern.length == path.length &&
    (List.zip pattern path).all (fun z => segMatches z.1 z.2)

/-- A header guard passes when the request carries exactly the required
header value. -/
def guardPasses (req : Request) (g : String × String) : Bool :=
  headerLookup req.headers g.1 == some g.2

/-- A route is eligible when method, path pattern and all its guards match. -/
def routeMatches (req : Request) (r : RouteEntry) : Bool :=
  r.method == req.method &&
    (pathMatches r.pattern req.path && r.guards.all (guardPasses req))

inductive DispatchResult where
  | matched (handler : String)
  | notFound
deriving DecidableEq

/-- The router selects the first eligible route, else answers 404; a guard
mismatch has no dedicated outcome — there is none to produce. -/
def dispatch (routes : List RouteEntry) (req : Request) : DispatchResult :=
  match routes.find? (routeMatches req) with
  | some r => .matched r.handler
  | none => .notFound

/-- The route table registered by `config` (routes.rs lines 217-265), with
the `/api/v1` and `/users` scope prefixes flattened into full patterns, in
registration order. -/
def routeTable : List RouteEntry := [
  { method := "GET", pattern := [.lit "api", .lit "v1", .lit "health"],
    guards := [], handler := "health" },
  { method := "GET", pattern := [.lit "api", .lit "v1", .lit "index.html"],
    guards := [], handler := "index" },
  { method := "GET",
    pattern := [.lit "api", .lit "v1", .lit "users", .param "user_id",
      .param "friend"],
    guards := [], handler := "path" },
  { method := "GET", pattern := [.lit "api", .lit "v1", .lit "users", .lit "q"],
    guards := [], handler := "query" },
  { method := "POST",
    pattern := [.lit "api", .lit "v1", .lit "users", .lit "payload"],
    guards := [("content-type", "application/json")], handler := "payload" },
  { method := "POST",
    pattern := [.lit "api", .lit "v1", .lit "users", .lit "json"],
    guards := [("content-type", "application/json")], handler := "json" },
  { method := "GET", pattern := [.lit "api", .lit "v1", .lit "stream"],
    guards := [], handler := "stream" },
  { method := "GET", pattern := [.lit "api", .lit "v1", .lit "error"],
    guards := [], handler := "error" },
  { method := "GET", pattern := [.lit "api", .lit "v1", .lit "resource"],
    guards := [("content-type", "text/plain")], handler := "resource" },
  { method := "POST", pattern := [.lit "api", .lit "v1", .lit "employee"],
    guards := [], handler := "create_employee" },
  { method := "GET",
    pattern := [.lit "api", .lit "v1", .lit "employee", .param "id"],
    guards := [], handler := "get_employee" },
  { method := "GET", pattern := [.lit "api", .lit "v1", .lit "employees"],
    guards := [], handler := "get_employees" },
  { method := "PUT",
    pattern := [.lit "api", .lit "v1", .lit "employee", .param "id"],
    guards := [], handler := "update_employee" },
  { method := "DELETE",
    pattern := [.lit "api", .lit "v1", .lit "employee", .param "id"],
    guards := [], handler := "delete_employee" }]

/-! ## Claim C7 -/

/-- Claim C7: a POST to `/api/v1/users/payload` whose headers fail the
route's `content-type: application/json` guard matches no route at all — the
dispatcher answers 404 (and `DispatchResult` has no guard-error outcome the
router could produce instead). -/
theorem C7_guard_mismatch_falls_through (headers : List (String × String))
    (h : headerLookup headers "content-type" ≠ some "application/json") :
    dispatch routeTable
      { method := "POST", path := ["api", "v1", "users", "payload"],
        headers := headers } = .notFound := by
  have hb : (headerLookup headers "content-type" ==
      some "application/json") = false := beq_eq_false_iff_ne.mpr h
  have hnone : routeTable.find? (routeMatches
      { method := "POST", path := ["api", "v1", "users", "payload"],
        headers := headers }) = none := by
    apply List.find?_eq_none.mpr
    intro r hr
    simp only [routeTable, List.mem_cons, List.not_mem_nil, or_false] at hr
    intro hc
    rw [routeMatches, Bool.and_eq_true, Bool.and_eq_true] at hc
    rcases hr with rfl|rfl|rfl|rfl|rfl|rfl|rfl|rfl|rfl|rfl|rfl|rfl|rfl|rfl <;>
      (dsimp only at hc
       first
         | exact absurd hc.1 (by decide)
         | exact absurd hc.2.1 (by decide)
         | (have hg := hc.2.2
            simp only [List.all_cons, List.all_nil, Bool.and_true,
              guardPasses] at hg
            rw [hb] at hg
            exact Bool.false_ne_true hg))
  simp [dispatch, hnone]

/-- Witness for C7 at a concrete input: `content-type: text/plain`. -/
theorem C7_guard_mismatch_falls_through_witness :
    dispatch routeTable
      { method := "POST", path := ["api", "v1", "users", "payload"],
        headers := [("content-type", "text/plain")] } = .notFound :=
  C7_guard_mismatch_falls_through [("content-type", "text/plain")] (by decide)

/-! ## Startup (`main.rs` lines 7-34) -/

inductive StartupResult where
  | listening
  | aborted (msg : String)
deriving DecidableEq

/-- main.rs `main`: the pool is built by `repository::database::new()` before
`HttpServer::new(...)` is even constructed, and `.bind(("127.0.0.1", 8080))`
and `.run()` come after; a panic inside `new` (either `expect`) aborts the
process before the server ever binds or listens. -/
def main_startup (database_url : Option String) (buildOk : String → Bool) :
    StartupResult :=
  match Database.new database_url buildOk with
  | .error msg => .aborted msg
  | .ok _ => .listening

/-! ## Claim C8 -/

/-- Claim C8: pool construction fails fast — whenever `DATABASE_URL` is
absent, or the initial pool cannot be established for the given connection
string (malformed URL or unreachable database), startup aborts with the
corresponding expect message and the process never begins listening. -/
theorem C8_startup_fails_fast (database_url : Option String)
    (buildOk : String → Bool)
    (h : database_url = none ∨
      ∃ url, database_url = some url ∧ buildOk url = false) :
    main_startup database_url buildOk ≠ .listening ∧
    ∃ msg, main_startup database_url buildOk = .aborted msg := by
  rcases h with rfl | ⟨url, rfl, hbuild⟩
  · exact ⟨by simp [main_startup, Database.new],
      "DATABASE_URL must be set", by simp [main_startup, Database.new]⟩
  · refine ⟨?_, "Failed to create pool.", ?_⟩ <;>
      simp [main_startup, Database.new, hbuild]

/-- Witness for C8 at a concrete input: no `DATABASE_URL` in the
environment. -/
theorem C8_startup_fails_fast_witness :
    main_startup none (fun _ => true) ≠ .listening ∧
    ∃ msg, main_startup none (fun _ => true) = .aborted msg :=
  C8_startup_fails_fast none (fun _ => true) (Or.inl rfl)

/-! ## Blocking-call placement (`routes.rs`).
Where each potentially blocking operation of a handler executes is a static
fact of the source: everything written inside the `web::block` closure runs
on the offload worker pool, everything else in the handler body runs on the
reactor thread. -/

inductive ExecThread where
  | reactor
  | workerPool
deriving DecidableEq

inductive BlockingOp where
  | poolAcquire
  | dbStatement (op : String)
deriving DecidableEq

/-- The potentially blocking operations of `create_employee` (routes.rs lines
129-147) in program order, each tagged with the thread it runs on:
`pool.get().expect(...)` (line 133) executes in the handler's async body —
on the reactor thread — before `web::block` is entered; only the repository
call inside the `web::block` closure (line 141) runs on the worker pool. -/
def create_employee_blocking_ops : List (BlockingOp × ExecThread) :=
  [(.poolAcquire, .reactor), (.dbStatement "create_employee", .workerPool)]

/-- Same for `get_employees` (routes.rs lines 164-174): `pool.get()` on line
167 precedes the `web::block` on line 169. -/
def get_employees_blocking_ops : List (BlockingOp × ExecThread) :=
  [(.poolAcquire, .reactor), (.dbStatement "get_all_employees", .workerPool)]

/-! ## Claim C9 -/

/-- Claim C9 fails on the code: pooled-connection acquisition is not wrapped
by the blocking-call offload executor — in both cited handlers `pool.get()`
runs on the reactor thread, before `web::block` is entered, although the
comment inside the `web::block` closure says it "should be called within the
`web::block` closure, as well". -/
theorem C9_pool_acquire_on_reactor :
    (BlockingOp.poolAcquire, ExecThread.reactor) ∈
      create_employee_blocking_ops ∧
    (BlockingOp.poolAcquire, ExecThread.reactor) ∈
      get_employees_blocking_ops ∧
    ¬ (∀ p ∈ create_employee_blocking_ops, p.2 = ExecThread.workerPool) := by
  decide
